import Mathlib

/-!
Verification of the resilience layer of the system-design repository:
the circuit-breaker-guarded retrying HTTP call executor (`RestUtility`)
and the distributed-lock-protected critical section (`OrderService`).

Pure parts of the TypeScript source are embedded as Lean functions.
Behaviour implemented by external libraries (opossum's breaker state
machine, axios-retry's retry loop, redlock's quorum algorithm) is not
under `src/`; those parts are modelled from the spec, and each such
definition says so in its doc comment.
-/

/-- An error observed by a failed HTTP attempt: either a network-class
error (the request got no response) or an HTTP response with a status
code. `idempotentMethod` records whether the request method was
idempotent (GET/HEAD/OPTIONS/PUT/DELETE). -/
inductive CallError where
  | network (idempotentMethod : Bool)
  | http (status : Nat) (idempotentMethod : Bool)
deriving DecidableEq, Repr

/-- Network-class errors: the request never received a response. -/
def isNetworkClass : CallError → Bool
  | .network _ => true
  | .http _ _ => false

/-- Server-class errors: a response whose status is in the server-error
range (≥ 500). -/
def isServerClass : CallError → Bool
  | .network _ => false
  | .http s _ => decide (500 ≤ s)

/-- Client-class errors: a response with a 4xx status. -/
def isClientClass : CallError → Bool
  | .network _ => false
  | .http s _ => decide (400 ≤ s ∧ s < 500)

/-- The response status carried by the error, when a response arrived.
Mirrors `error.response && error.response.status` in the source. -/
def responseStatus : CallError → Option Nat
  | .network _ => none
  | .http s _ => some s

/-- Modelled from the spec: `axiosRetry.isNetworkOrIdempotentRequestError`
(external axios-retry library, not under src/): true for a network-class
error, or for a retryable (server-class) response error on an idempotent
request. -/
def isNetworkOrIdempotentRequestError : CallError → Bool
  | .network _ => true
  | .http s idem => idem && decide (500 ≤ s) && decide (s ≤ 599)

/-- The retry predicate installed by `RestUtility.applyRetry`:
`axiosRetry.isNetworkOrIdempotentRequestError(error) ||
 (error.response && error.response.status >= StatusCodes.INTERNAL_SERVER_ERROR)`. -/
def retryCondition (e : CallError) : Bool :=
  isNetworkOrIdempotentRequestError e ||
    (match responseStatus e with
     | some s => decide (500 ≤ s)
     | none => false)

/-- The backoff function installed by `RestUtility.applyRetry`:
`Math.pow(2, retryCount) * 1000` milliseconds, where `retryCount` is the
current retry number (1 for the first retry). -/
def retryDelay (retryCount : Nat) : Nat :=
  2 ^ retryCount * 1000

/-- The retry configuration installed on an axios instance by
`axiosRetry(instance, {...})`; the condition and delay functions are the
fixed ones above, so only the `retries` bound is recorded. -/
structure RetryConfig where
  retries : Nat
deriving DecidableEq, Repr

/-- An axios instance, as far as the claims are concerned: it either
carries a retry configuration (after `axiosRetry` was applied to it) or
does not. -/
structure AxiosInstance where
  retryConfig : Option RetryConfig
deriving DecidableEq, Repr

/-- A fresh instance as returned by `axios.create(config)`: no retry
configuration installed. -/
def axiosCreate : AxiosInstance := ⟨none⟩

/-- `RestUtility.applyRetry(shouldRetry, retryCount, instance)`: installs
the retry configuration on the given instance only when `shouldRetry`,
and otherwise does nothing. -/
def applyRetry (shouldRetry : Bool) (retryCount : Nat) (inst : AxiosInstance) :
    AxiosInstance :=
  if shouldRetry then { inst with retryConfig := some ⟨retryCount⟩ }
  else inst

/-- The observable outcome of firing a request through an instance:
the final result, the number of attempts made, and the cumulative
inter-attempt delay. -/
structure RunResult (α : Type) where
  result : Except CallError α
  attempts : Nat
  totalDelay : Nat
deriving Repr

/-- Modelled from the spec: the retry loop run by the axios-retry
interceptors (external library, not under src/). `outcomes i` is the
outcome of the i-th attempt (0-based); after a failed attempt, a retry
happens when retries remain and `retryCondition` accepts the error,
after sleeping `retryDelay` of the next retry number. -/
def runRetries (outcomes : Nat → Except CallError α) :
    Nat → Nat → Nat → Nat → RunResult α
  | attempt, retriesLeft, retryNum, delayAcc =>
    match outcomes attempt with
    | .ok v => ⟨.ok v, attempt + 1, delayAcc⟩
    | .error e =>
      match retriesLeft with
      | 0 => ⟨.error e, attempt + 1, delayAcc⟩
      | n + 1 =>
        if retryCondition e then
          runRetries outcomes (attempt + 1) n (retryNum + 1)
            (delayAcc + retryDelay (retryNum + 1))
        else ⟨.error e, attempt + 1, delayAcc⟩

/-- Firing a request on an instance: an instance without retry
configuration performs exactly one attempt; one with configuration runs
the retry loop with its `retries` bound. -/
def fireInstance (inst : AxiosInstance) (outcomes : Nat → Except CallError α) :
    RunResult α :=
  runRetries outcomes 0 ((inst.retryConfig.map RetryConfig.retries).getD 0) 0 0

/-- Circuit breaker status, per the spec's state machine. -/
inductive BreakerStatus where
  | CLOSED
  | OPEN
  | HALF_OPEN
deriving DecidableEq, Repr

/-- Circuit breaker state: status, rolling counters, and the time the
circuit last opened. -/
structure BreakerState where
  status : BreakerStatus
  rollingFailureCount : Nat
  rollingTotalCount : Nat
  openedAt : Nat
deriving DecidableEq, Repr

/-- Circuit breaker configuration. The failure-ratio threshold is kept
as the rational `thresholdNum / thresholdDen`. -/
structure BreakerConfig where
  minimumVolume : Nat
  thresholdNum : Nat
  thresholdDen : Nat
  resetTimeout : Nat
deriving DecidableEq, Repr

/-- The breaker configuration set up in `RestUtility`'s constructor:
`errorThresholdPercentage: 50` (ratio 1/2) and `resetTimeout: 10000`;
no volume threshold is configured, leaving the library default of 0. -/
def sourceBreakerConfig : BreakerConfig := ⟨0, 1, 2, 10000⟩

/-- The state a breaker starts in: CLOSED with zeroed counters. -/
def initialBreakerState : BreakerState := ⟨.CLOSED, 0, 0, 0⟩

/-- Modelled from the spec: the automatic OPEN → HALF_OPEN transition of
the breaker (opossum library, not under src/): once
`now − openedAt ≥ resetTimeout`, an OPEN breaker becomes HALF_OPEN. -/
def breakerTick (cfg : BreakerConfig) (st : BreakerState) (now : Nat) : BreakerState :=
  if st.status = .OPEN ∧ cfg.resetTimeout ≤ now - st.openedAt then
    { st with status := .HALF_OPEN }
  else st

/-- Modelled from the spec: recording one outcome while CLOSED (opossum
library, not under src/): counters are updated, and the breaker opens
exactly when the rolling total has reached `minimumVolume` and the
failure ratio has reached the threshold. -/
def recordClosedOutcome (cfg : BreakerConfig) (st : BreakerState) (now : Nat)
    (failed : Bool) : BreakerState :=
  let failures := st.rollingFailureCount + (if failed then 1 else 0)
  let total := st.rollingTotalCount + 1
  if cfg.minimumVolume ≤ total ∧ cfg.thresholdNum * total ≤ cfg.thresholdDen * failures then
    ⟨.OPEN, failures, total, now⟩
  else
    ⟨.CLOSED, failures, total, st.openedAt⟩

/-- What a call through the breaker yields: the work's value, the work's
error, or a fast-fail `CircuitOpenError` without running the work. -/
inductive BreakerResult (α : Type) where
  | ok (v : α)
  | failed (e : CallError)
  | circuitOpen
deriving DecidableEq, Repr

/-- Modelled from the spec: one call through the circuit breaker
(opossum library, not under src/). Returns the new breaker state, the
call result, and whether the underlying work was invoked. An OPEN
breaker whose reset timeout has not elapsed rejects without invoking the
work; once it has elapsed the breaker is HALF_OPEN and lets one trial
through, closing (counters reset) on success and re-opening on failure;
a CLOSED breaker runs the work and records the outcome. -/
def breakerCall (cfg : BreakerConfig) (st : BreakerState) (now : Nat)
    (work : Except CallError α) : BreakerState × BreakerResult α × Bool :=
  let st1 := breakerTick cfg st now
  match st1.status with
  | .OPEN => (st1, .circuitOpen, false)
  | .HALF_OPEN =>
    match work with
    | .ok v => (⟨.CLOSED, 0, 0, st1.openedAt⟩, .ok v, true)
    | .error e => (⟨.OPEN, st1.rollingFailureCount, st1.rollingTotalCount, now⟩, .failed e, true)
  | .CLOSED =>
    match work with
    | .ok v => (recordClosedOutcome cfg st1 now false, .ok v, true)
    | .error e => (recordClosedOutcome cfg st1 now true, .failed e, true)

/-- The mutable state of a `RestUtility` object: its constructor creates
a single `CircuitBreaker` around `makeRequest`, shared by every request
the utility issues. -/
structure RestUtilityState where
  breaker : BreakerState
deriving DecidableEq, Repr

/-- The observable outcome of one `RestUtility.get` call: the utility's
new state, the result, and how many underlying attempts ran with what
cumulative retry delay. -/
structure GetResult (α : Type) where
  state : RestUtilityState
  result : BreakerResult α
  attemptsMade : Nat
  totalDelay : Nat
deriving Repr

/-- `RestUtility.get` of the circuit-breaker version of the source:
`applyRetry` is invoked on a fresh `axios.create(config)` instance that
is then discarded, and the breaker fires `makeRequest`, which creates
another fresh instance (carrying no retry configuration) and performs
the request on it. `outcomes i` is what the remote returns to the i-th
underlying attempt. -/
def restUtilityGet (cfg : BreakerConfig) (u : RestUtilityState) (retry : Bool)
    (retryCount : Nat) (now : Nat) (outcomes : Nat → Except CallError α) : GetResult α :=
  let _retryConfiguredInstance := applyRetry retry retryCount axiosCreate
  let run := fireInstance axiosCreate outcomes
  let r := breakerCall cfg u.breaker now run.result
  ⟨⟨r.1⟩, r.2.1, if r.2.2 then run.attempts else 0, if r.2.2 then run.totalDelay else 0⟩

/-- `RestUtility.get` with the endpoint made explicit: the endpoint only
selects the URL inside the request config; the circuit breaker consulted
and updated is the single one held by the utility, whatever the
endpoint. -/
def restUtilityGetEndpoint (cfg : BreakerConfig) (u : RestUtilityState)
    (endpoint : String) (retry : Bool) (retryCount : Nat) (now : Nat)
    (outcomes : Nat → Except CallError α) : GetResult α :=
  restUtilityGet cfg u retry retryCount now outcomes

/-- `RestUtility.get` of the second (breaker-free) version of the
source: `applyRetry` is applied to the same instance the request is then
performed on. -/
def restUtilityGetV2 (retry : Bool) (retryCount : Nat)
    (outcomes : Nat → Except CallError α) : RunResult α :=
  fireInstance (applyRetry retry retryCount axiosCreate) outcomes

/-- Quorum size for N authorities: `floor(N/2) + 1`. -/
def majority (n : Nat) : Nat := n / 2 + 1

/-- The indices of the authorities that accepted an acquisition. -/
def acceptedIndices (responses : List Bool) : List Nat :=
  (responses.enum.filter (fun p => p.2)).map (fun p => p.1)

/-- A lease as held by the Lock Manager after a successful quorum
acquisition. -/
structure Lease where
  resourceKey : String
  ownerToken : Nat
  validUntil : Nat
  quorumAchieved : Nat
deriving DecidableEq, Repr

/-- Terminal lock-acquisition errors. -/
inductive AcquireError where
  | quorumNotReached
deriving DecidableEq, Repr

/-- Outcome of a lock acquisition attempt: the lease or the error,
together with the indices of the accepting authorities to which a
best-effort release was issued. -/
structure AcquireResult where
  outcome : Except AcquireError Lease
  releasedTo : List Nat
deriving Repr

/-- Modelled from the spec: the quorum acquisition of the Distributed
Lock Manager (redlock library, not under src/; only its caller
`OrderService` is). All authorities are polled; `responses` lists which
accepted. The lock is acquired exactly when the acceptances reach
`majority N` and the remaining validity `ttl − elapsed − driftMargin`
is positive; otherwise a best-effort release goes to every accepting
authority and `QuorumNotReached` is returned. -/
def lockAcquire (resourceKey : String) (ownerToken ttl startTime now driftMargin : Nat)
    (responses : List Bool) : AcquireResult :=
  let quorum := (responses.filter (fun b => b)).length
  let elapsed := now - startTime
  if majority responses.length ≤ quorum ∧ elapsed + driftMargin < ttl then
    { outcome := Except.ok
        { resourceKey := resourceKey
          ownerToken := ownerToken
          validUntil := startTime + (ttl - elapsed - driftMargin)
          quorumAchieved := quorum }
      releasedTo := [] }
  else
    { outcome := Except.error .quorumNotReached
      releasedTo := acceptedIndices responses }

/-- Whether an `Except` value is a success. -/
def exceptIsOk : Except ε α → Bool
  | .ok _ => true
  | .error _ => false

/-- Observable outcome of `OrderService.createOrder`: what it returns or
throws, and the list of locks it released. -/
structure CreateOrderResult where
  result : Except String Unit
  released : List Nat
deriving Repr

/-- `OrderService.createOrder`: acquires the redlock for the order key,
runs `processOrder`, wraps any thrown error into
`Error("Could not create order")`, and in the `finally` block releases
the lock whenever one was acquired. `acquireResult` is what
`redlock.acquire` yields (a lock handle or a thrown error) and
`processResult` what `processOrder` yields. -/
def createOrder (acquireResult : Except String Nat)
    (processResult : Except String Unit) : CreateOrderResult :=
  match acquireResult with
  | .error _ => ⟨.error "Could not create order", []⟩
  | .ok lock =>
    match processResult with
    | .ok _ => ⟨.ok (), [lock]⟩
    | .error _ => ⟨.error "Could not create order", [lock]⟩

/-- The outcome sequence of C1's scenario: the first two attempts fail
with a server-class (HTTP 500) error, the third succeeds. -/
def c1Outcomes : Nat → Except CallError Unit :=
  fun i => if i < 2 then .error (.http 500 true) else .ok ()

/-- C1: evaluating `RestUtility.get` (circuit-breaker version) with
`retry := true`, `maxRetries := 2` on a work function that fails twice
with HTTP 500 and then succeeds. The call surfaces the first failure
after a single attempt with zero retry delay, because `applyRetry`
configures a throwaway instance while the breaker fires a fresh,
unconfigured one; and even the breaker-free version, where retry does
apply, succeeds after 2 retries with cumulative delay 6000 ms
(2·base + 4·base), not base + 2·base. -/
theorem C1_get_retry_not_applied :
    (restUtilityGet sourceBreakerConfig ⟨initialBreakerState⟩ true 2 0 c1Outcomes).result
        = .failed (.http 500 true) ∧
    (restUtilityGet sourceBreakerConfig ⟨initialBreakerState⟩ true 2 0 c1Outcomes).attemptsMade
        = 1 ∧
    (restUtilityGet sourceBreakerConfig ⟨initialBreakerState⟩ true 2 0 c1Outcomes).totalDelay
        = 0 ∧
    (restUtilityGetV2 true 2 c1Outcomes).result = .ok () ∧
    (restUtilityGetV2 true 2 c1Outcomes).attempts = 3 ∧
    (restUtilityGetV2 true 2 c1Outcomes).totalDelay = 6000 :=
  ⟨rfl, rfl, rfl, rfl, rfl, rfl⟩

/-- C2: the Lock Manager's acquisition (modelled from the spec) returns
a Lease exactly when the acceptances reach `floor(N/2)+1` and the
remaining validity `ttl − elapsed − driftMargin` is positive; with N = 3
and 2 acceptances it returns the Lease with `quorumAchieved = 2`, and
with 1 acceptance it returns `QuorumNotReached` and issues a release to
the single accepting authority. -/
theorem C2_lock_manager_quorum :
    (∀ (key : String) (tok ttl s now d : Nat) (rs : List Bool),
        exceptIsOk (lockAcquire key tok ttl s now d rs).outcome = true ↔
          (majority rs.length ≤ (rs.filter (fun b => b)).length ∧ (now - s) + d < ttl)) ∧
    ((lockAcquire "order" 1 30000 0 0 0 [true, true, false]).outcome =
        Except.ok ⟨"order", 1, 30000, 2⟩) ∧
    ((lockAcquire "order" 1 30000 0 0 0 [false, true, false]).outcome =
        Except.error .quorumNotReached ∧
      (lockAcquire "order" 1 30000 0 0 0 [false, true, false]).releasedTo = [1]) := by
  refine ⟨?_, rfl, rfl, rfl⟩
  intro key tok ttl s now d rs
  simp only [lockAcquire]
  split
  next h => simpa [exceptIsOk] using h
  next h => simpa [exceptIsOk] using h

/-- C3 counterexample: the endpoints `"a"` and `"b"` are distinct, a
call to `"b"` on a fresh utility passes through and succeeds, yet after
one failing outcome recorded through endpoint `"a"` the very same call
to `"b"` is rejected with `circuitOpen` — outcomes on one endpoint do
change the breaker status observed by the other. -/
theorem C3_counterexample :
    ("a" : String) ≠ "b" ∧
    (restUtilityGetEndpoint sourceBreakerConfig ⟨initialBreakerState⟩ "b" false 3 0
        (fun _ => Except.ok ()) (α := Unit)).result = .ok () ∧
    (restUtilityGetEndpoint sourceBreakerConfig
        ((restUtilityGetEndpoint sourceBreakerConfig ⟨initialBreakerState⟩ "a" false 3 0
            (fun _ => Except.error (.network true)) (α := Unit)).state)
        "b" false 3 1 (fun _ => Except.ok ()) (α := Unit)).result = .circuitOpen :=
  ⟨by decide, rfl, rfl⟩

/-- C3 (amended): `RestUtility` holds a single circuit breaker shared by
every endpoint: a call's observable outcome and the utility's new state
are identical whatever endpoint is addressed, so the breaker status
observed by one endpoint reflects outcomes recorded through any other. -/
theorem C3_amended_shared_breaker (cfg : BreakerConfig) (u : RestUtilityState)
    (e1 e2 : String) (retry : Bool) (retryCount now : Nat)
    (outcomes : Nat → Except CallError Unit) :
    restUtilityGetEndpoint cfg u e1 retry retryCount now outcomes =
      restUtilityGetEndpoint cfg u e2 retry retryCount now outcomes := rfl

/-- C4 counterexample: the source's backoff function gives the first
retry a delay of `2^1 * 1000 = 2000` ms, not `base * 2^(1-1) = 1000`
ms as the claim states. -/
theorem C4_counterexample : retryDelay 1 ≠ 1000 * 2 ^ (1 - 1) := by decide

/-- C4 (amended): the backoff function installed by `applyRetry`
satisfies `nextDelay(n) = base * 2^n` with `base = 1000` ms (so the
first retry waits 2000 ms), and is non-decreasing in `n`. -/
theorem C4_backoff_formula :
    (∀ n : Nat, retryDelay n = 1000 * 2 ^ n) ∧
    (∀ n : Nat, retryDelay n ≤ retryDelay (n + 1)) := by
  constructor
  · intro n
    rw [retryDelay, Nat.mul_comm]
  · intro n
    unfold retryDelay
    exact Nat.mul_le_mul_right 1000 (Nat.pow_le_pow_right (by norm_num) (Nat.le_succ n))

/-- Recording an outcome on a CLOSED breaker yields OPEN exactly when
the updated counters satisfy the volume and ratio thresholds. -/
theorem recordClosedOutcome_open_iff (cfg : BreakerConfig) (st : BreakerState)
    (now : Nat) (failed : Bool) :
    (recordClosedOutcome cfg st now failed).status = .OPEN ↔
      (cfg.minimumVolume ≤ st.rollingTotalCount + 1 ∧
       cfg.thresholdNum * (st.rollingTotalCount + 1) ≤
         cfg.thresholdDen * (st.rollingFailureCount + (if failed then 1 else 0))) := by
  by_cases hcond : cfg.minimumVolume ≤ st.rollingTotalCount + 1 ∧
      cfg.thresholdNum * (st.rollingTotalCount + 1) ≤
        cfg.thresholdDen * (st.rollingFailureCount + (if failed then 1 else 0))
  · simp [recordClosedOutcome, hcond]
  · simp [recordClosedOutcome, hcond]

/-- C5: starting from any CLOSED state, one recorded outcome moves the
breaker to OPEN only when, at that point, the rolling total (after the
outcome) has reached `minimumVolume` and the failure ratio (after the
outcome) has reached the configured threshold; equivalently, the breaker
never opens before both conditions hold. -/
theorem C5_closed_to_open_threshold (cfg : BreakerConfig) (st : BreakerState)
    (now : Nat) (w : Except CallError Unit)
    (hclosed : st.status = .CLOSED)
    (hopen : (breakerCall cfg st now w).1.status = .OPEN) :
    cfg.minimumVolume ≤ st.rollingTotalCount + 1 ∧
    cfg.thresholdNum * (st.rollingTotalCount + 1) ≤
      cfg.thresholdDen * (st.rollingFailureCount + (if exceptIsOk w then 0 else 1)) := by
  have ht : breakerTick cfg st now = st := by
    simp [breakerTick, hclosed]
  cases w with
  | ok v =>
    have h1 : (breakerCall cfg st now (Except.ok v)).1 = recordClosedOutcome cfg st now false := by
      simp [breakerCall, ht, hclosed]
    rw [h1] at hopen
    have hc := (recordClosedOutcome_open_iff cfg st now false).mp hopen
    simpa [exceptIsOk] using hc
  | error e =>
    have h1 : (breakerCall cfg st now (Except.error e : Except CallError Unit)).1 =
        recordClosedOutcome cfg st now true := by
      simp [breakerCall, ht, hclosed]
    rw [h1] at hopen
    have hc := (recordClosedOutcome_open_iff cfg st now true).mp hopen
    simpa [exceptIsOk] using hc

/-- C5 witness: with the source configuration, recording one failed
outcome on a fresh CLOSED breaker opens it, and the two threshold
conditions indeed hold at that point. -/
theorem C5_witness :
    sourceBreakerConfig.minimumVolume ≤ initialBreakerState.rollingTotalCount + 1 ∧
    sourceBreakerConfig.thresholdNum * (initialBreakerState.rollingTotalCount + 1) ≤
      sourceBreakerConfig.thresholdDen * (initialBreakerState.rollingFailureCount +
        (if exceptIsOk (Except.error (.network true) : Except CallError Unit) then 0 else 1)) :=
  C5_closed_to_open_threshold sourceBreakerConfig initialBreakerState 0
    (Except.error (.network true)) rfl rfl

/-- C6: while the breaker is OPEN and `now − openedAt < resetTimeout`,
a call returns `circuitOpen` without invoking the work and leaves the
state unchanged; once `resetTimeout ≤ now − openedAt`, the automatic
transition moves the breaker to HALF_OPEN. -/
theorem C6_open_rejects_until_reset (cfg : BreakerConfig) (st : BreakerState)
    (now : Nat) (w : Except CallError Unit) (hopen : st.status = .OPEN) :
    (now - st.openedAt < cfg.resetTimeout →
      breakerCall cfg st now w = (st, .circuitOpen, false)) ∧
    (cfg.resetTimeout ≤ now - st.openedAt →
      (breakerTick cfg st now).status = .HALF_OPEN) := by
  constructor
  · intro hlt
    have ht : breakerTick cfg st now = st := by
      simp [breakerTick, hopen]
      omega
    simp [breakerCall, ht, hopen]
  · intro hge
    simp [breakerTick, hopen, hge]

/-- C6 witness: with the source configuration (resetTimeout 10000 ms), a
breaker opened at time 100 rejects a call at time 105 without invoking
the work, and is HALF_OPEN by time 10100. -/
theorem C6_witness :
    (breakerCall sourceBreakerConfig ⟨.OPEN, 3, 4, 100⟩ 105
        (Except.ok () : Except CallError Unit) = (⟨.OPEN, 3, 4, 100⟩, .circuitOpen, false)) ∧
    (breakerTick sourceBreakerConfig ⟨.OPEN, 3, 4, 100⟩ 10100).status = .HALF_OPEN :=
  ⟨(C6_open_rejects_until_reset sourceBreakerConfig ⟨.OPEN, 3, 4, 100⟩ 105
      (Except.ok ()) rfl).1 (by decide),
   (C6_open_rejects_until_reset sourceBreakerConfig ⟨.OPEN, 3, 4, 100⟩ 10100
      (Except.ok ()) rfl).2 (by decide)⟩

/-- C7: the retry predicate installed by `applyRetry` accepts an error
exactly when it is network-class or server-class (response status
≥ 500), and rejects every client-class (4xx) error. -/
theorem C7_retry_predicate :
    ∀ e : CallError,
      (retryCondition e = (isNetworkClass e || isServerClass e)) ∧
      (isClientClass e = true → retryCondition e = false) := by
  intro e
  cases e with
  | network idem =>
    simp [retryCondition, isNetworkOrIdempotentRequestError, isNetworkClass,
      isServerClass, isClientClass, responseStatus]
  | http s idem =>
    constructor
    · by_cases h5 : 500 ≤ s <;>
        simp [retryCondition, isNetworkOrIdempotentRequestError, isNetworkClass,
          isServerClass, responseStatus, h5]
    · intro hc
      simp only [isClientClass, decide_eq_true_eq] at hc
      simp only [retryCondition, isNetworkOrIdempotentRequestError, responseStatus]
      simp only [Bool.or_eq_false_iff, Bool.and_eq_false_iff, decide_eq_false_iff_not]
      constructor
      · left
        right
        omega
      · omega

/-- C7 witness: a 404 (client-class) error is not retryable; a 503
(server-class) response on a non-idempotent request is retryable. -/
theorem C7_witness :
    retryCondition (.http 404 true) = false ∧ retryCondition (.http 503 false) = true :=
  ⟨(C7_retry_predicate (.http 404 true)).2 (by decide),
   by rw [(C7_retry_predicate (.http 503 false)).1]; decide⟩

/-- C8: on every exit path of `createOrder`, a lock that was acquired is
released exactly once before the method returns or rethrows — including
the path where `processOrder` throws — and when acquisition failed no
release happens. -/
theorem C8_release_on_all_paths (a : Except String Nat) (p : Except String Unit) :
    (∀ lock, a = .ok lock → (createOrder a p).released = [lock]) ∧
    ((∃ e, a = .error e) → (createOrder a p).released = []) := by
  constructor
  · intro lock ha
    subst ha
    cases p <;> simp [createOrder]
  · rintro ⟨e, ha⟩
    subst ha
    simp [createOrder]

/-- C8 witness: a lock acquired before a failing `processOrder` is still
released, and a failed acquisition releases nothing. -/
theorem C8_witness :
    (createOrder (.ok 5) (.error "boom")).released = [5] ∧
    (createOrder (.error "quorum lost") (.ok ())).released = [] :=
  ⟨(C8_release_on_all_paths (.ok 5) (.error "boom")).1 5 rfl,
   (C8_release_on_all_paths (.error "quorum lost") (.ok ())).2 ⟨"quorum lost", rfl⟩⟩

/-- C9 counterexample: a lock-acquisition failure and a transient
processing failure surface the very same generic error from
`createOrder`, and that surfaced error is not the original classified
one — the classification is lost, contrary to the claim. -/
theorem C9_counterexample :
    (createOrder (.error "QuorumNotReachedError") (.ok ())).result =
      (createOrder (.ok 7) (.error "TransientError")).result ∧
    (createOrder (.error "QuorumNotReachedError") (.ok ())).result ≠
      .error "QuorumNotReachedError" := by
  refine ⟨rfl, ?_⟩
  intro h
  have hs : ("Could not create order" : String) = "QuorumNotReachedError" := by
    simpa [createOrder] using h
  exact absurd hs (by decide)

/-- C9 (amended): no failure is silently swallowed — `createOrder`
fails exactly when acquisition or processing failed, and then always
surfaces the single terminal error `"Could not create order"` (which,
however, does not carry the underlying classification); the executor
path does preserve classification: a CLOSED breaker surfaces the work's
own error unchanged. -/
theorem C9_amended_terminal_error (a : Except String Nat) (p : Except String Unit) :
    (exceptIsOk (createOrder a p).result = false ↔
      (exceptIsOk a = false ∨ exceptIsOk p = false)) ∧
    (exceptIsOk (createOrder a p).result = false →
      (createOrder a p).result = .error "Could not create order") ∧
    (∀ (cfg : BreakerConfig) (st : BreakerState) (now : Nat) (e : CallError),
      st.status = .CLOSED →
      (breakerCall cfg st now (Except.error e : Except CallError Unit)).2.1 = .failed e) := by
  refine ⟨?_, ?_, ?_⟩
  · cases a <;> cases p <;> simp [createOrder, exceptIsOk]
  · cases a <;> cases p <;> simp [createOrder, exceptIsOk]
  · intro cfg st now e hclosed
    have ht : breakerTick cfg st now = st := by
      simp [breakerTick, hclosed]
    simp [breakerCall, ht, hclosed]

/-- C9 witness: a failed acquisition surfaces the terminal generic
error, and a CLOSED breaker surfaces an HTTP 502 work error as itself. -/
theorem C9_witness :
    (createOrder (Except.error "q") (Except.ok ())).result = .error "Could not create order" ∧
    (breakerCall sourceBreakerConfig initialBreakerState 0
        (Except.error (.http 502 true) : Except CallError Unit)).2.1 = .failed (.http 502 true) :=
  ⟨(C9_amended_terminal_error (Except.error "q") (Except.ok ())).2.1 rfl,
   (C9_amended_terminal_error (Except.error "q") (Except.ok ())).2.2
      sourceBreakerConfig initialBreakerState 0 (.http 502 true) rfl⟩

/-- C10: with the retry flag false, `applyRetry` returns the instance
unchanged whatever the retryCount argument; consequently the breaker-free
`get` performs exactly one underlying attempt, and so does the
circuit-breaker `get` whenever its breaker is CLOSED. -/
theorem C10_no_retry_frame :
    (∀ (n : Nat) (inst : AxiosInstance), applyRetry false n inst = inst) ∧
    (∀ (n : Nat) (outcomes : Nat → Except CallError Unit),
        (restUtilityGetV2 false n outcomes).attempts = 1) ∧
    (∀ (cfg : BreakerConfig) (u : RestUtilityState) (n now : Nat)
        (outcomes : Nat → Except CallError Unit),
        u.breaker.status = .CLOSED →
        (restUtilityGet cfg u false n now outcomes).attemptsMade = 1) := by
  refine ⟨?_, ?_, ?_⟩
  · intro n inst
    simp [applyRetry]
  · intro n outcomes
    cases hw : outcomes 0 <;>
      simp [restUtilityGetV2, applyRetry, axiosCreate, fireInstance, runRetries, hw]
  · intro cfg u n now outcomes h
    have ht : breakerTick cfg u.breaker now = u.breaker := by
      simp [breakerTick, h]
    cases hw : outcomes 0 <;>
      simp [restUtilityGet, breakerCall, ht, h, fireInstance, axiosCreate,
        applyRetry, runRetries, hw]

/-- C10 witness: on a fresh utility with the source configuration, a
`get` with the retry flag false and retryCount 3 performs exactly one
attempt. -/
theorem C10_witness :
    (restUtilityGet sourceBreakerConfig ⟨initialBreakerState⟩ false 3 0
        (fun _ => Except.ok () : Nat → Except CallError Unit)).attemptsMade = 1 :=
  C10_no_retry_frame.2.2 sourceBreakerConfig ⟨initialBreakerState⟩ 3 0
    (fun _ => Except.ok ()) rfl
